import Mathlib

/-!
# Verification of the SIH Twilio hazard-report server (`server.js`)

A shallow embedding of the message-ingestion pipeline of `server.js`:
channel detection (`getChannelInfo`), free-text hazard parsing
(`parseHazardReport`, including a faithful model of the location regex
`/(?:at|in|near)\s+([^,\.\n]+)/i` with its backtracking), the geocoder
cache (`geocodeLocation`), the report store (`saveReport`), signature
gating (`validateTwilioRequest`), and the webhook handler
(`app.post('/api/twilio/incoming-sms')`).

Modelling conventions:
* JavaScript `undefined` for an absent field is `Option.none`; JS falsy
  values that flow into stored fields (`undefined`, `''`, booleans) are
  the inductive `JsVal`.
* External collaborators (Twilio's signature check, the Nominatim HTTP
  lookup, the media download) are inputs to the embedded functions: the
  geocoder response arrives already JSON-parsed, with coordinates as
  integers (IEEE `parseFloat` is out of scope, per the spec the provider
  is an external collaborator `geocode(text) -> coords | absent`).
* Real time is not modelled; `Date.now()` values are `Nat` parameters.
* The `try`/`catch` of each function is modelled by its non-throwing
  result value, exactly as the source returns it.
-/

/-! ## JavaScript string semantics helpers -/

/-- JS whitespace (the ASCII part plus NBSP), as used by `\s`, `trim()`
and `parseInt`. -/
def isJsSpace (c : Char) : Bool :=
  c == ' ' || c == '\t' || c == '\n' || c == '\r' ||
  c == '\x0b' || c == '\x0c' || c == ' '

/-- `String.prototype.trim()`: strip whitespace from both ends. -/
def jsTrim (s : String) : String :=
  ⟨((s.data.dropWhile isJsSpace).reverse.dropWhile isJsSpace).reverse⟩

/-- `String.prototype.toLowerCase()` restricted to ASCII case folding
(the only case arising for the keyword tables of `server.js`). -/
def jsToLower (s : String) : String :=
  ⟨s.data.map Char.toLower⟩

/-- Does the character list `l` start with `p`? (exact characters). -/
def listStartsWith : List Char → List Char → Bool
  | _, [] => true
  | [], _ :: _ => false
  | a :: as, b :: bs => a == b && listStartsWith as bs

/-- `String.prototype.startsWith(pat)`. -/
def jsStartsWith (s pat : String) : Bool :=
  listStartsWith s.data pat.data

/-- Substring containment on character lists (`String.prototype.includes`). -/
def listContains : List Char → List Char → Bool
  | [], sub => sub.isEmpty
  | a :: as, sub => listStartsWith (a :: as) sub || listContains as sub

/-- `haystack.includes(needle)`. -/
def jsIncludes (haystack needle : String) : Bool :=
  listContains haystack.data needle.data

/-- `String.prototype.replace(pat, repl)` with a *string* pattern:
replace only the first occurrence, return the input unchanged when the
pattern does not occur. -/
def replaceFirstList (l : List Char) (pat repl : List Char) : List Char :=
  match l with
  | [] => if pat.isEmpty then repl else []
  | c :: cs =>
      if listStartsWith (c :: cs) pat then repl ++ (c :: cs).drop pat.length
      else c :: replaceFirstList cs pat repl

/-- `s.replace(pat, repl)` (first occurrence only, as in JS). -/
def jsReplaceFirst (s pat repl : String) : String :=
  ⟨replaceFirstList s.data pat.data repl.data⟩

/-- Decimal digit run to a number. -/
def digitsToNat (ds : List Char) : Nat :=
  ds.foldl (fun a c => a * 10 + (c.toNat - '0'.toNat)) 0

/-- Hexadecimal digit predicate. -/
def isHexDigitJs (c : Char) : Bool :=
  c.isDigit || ('a' ≤ c && c ≤ 'f') || ('A' ≤ c && c ≤ 'F')

/-- Hexadecimal digit run to a number. -/
def hexToNat (ds : List Char) : Nat :=
  ds.foldl (fun a c =>
    a * 16 + (if c.isDigit then c.toNat - '0'.toNat
              else if 'a' ≤ c && c ≤ 'f' then c.toNat - 'a'.toNat + 10
              else c.toNat - 'A'.toNat + 10)) 0

/-- `parseInt` after the optional sign has been consumed: `0x`/`0X`
selects base 16, otherwise the longest leading decimal digit run;
no digits means `NaN` (`none`). -/
def parseIntSigned (sign : Int) (cs : List Char) : Option Int :=
  match cs with
  | '0' :: x :: r =>
      if x == 'x' || x == 'X' then
        if (r.takeWhile isHexDigitJs).isEmpty then none
        else some (sign * (hexToNat (r.takeWhile isHexDigitJs) : Int))
      else
        if (('0' :: x :: r).takeWhile Char.isDigit).isEmpty then none
        else some (sign * (digitsToNat (('0' :: x :: r).takeWhile Char.isDigit) : Int))
  | other =>
      if (other.takeWhile Char.isDigit).isEmpty then none
      else some (sign * (digitsToNat (other.takeWhile Char.isDigit) : Int))

/-- JS `parseInt(s)` (radix argument omitted): skip leading whitespace,
optional sign, then digits; `none` models `NaN`. -/
def parseIntJS (s : String) : Option Int :=
  match s.data.dropWhile isJsSpace with
  | '-' :: r => parseIntSigned (-1) r
  | '+' :: r => parseIntSigned 1 r
  | cs => parseIntSigned 1 cs

/-- A JS value as it ends up stored in a report field when the source
computes it with `&&` on possibly-absent strings: `undefined`, the empty
string, or an actual boolean. -/
inductive JsVal where
  | undef
  | emptyStr
  | jsBool (b : Bool)
deriving DecidableEq, Repr

/-- JS truthiness of a `JsVal`. -/
def JsVal.truthy : JsVal → Bool
  | .jsBool b => b
  | _ => false

/-- `x || ''` for an optional string (absent and `''` both give `''`). -/
def jsOrEmpty : Option String → String
  | none => ""
  | some s => s

/-- `x || d` for an optional string: the default replaces both an absent
and an empty value (JS falsiness of `''`). -/
def jsOrDefault (x : Option String) (d : String) : String :=
  match x with
  | none => d
  | some s => if s = "" then d else s

/-- Truthiness of an optional string (`undefined` and `''` are falsy). -/
def jsTruthyOpt : Option String → Bool
  | none => false
  | some s => !(s = "")

/-! ## Channel detector (`getChannelInfo`, server.js:72-79) -/

/-- Result of `getChannelInfo`.  `isWhatsApp` keeps the raw JS value of
`fromNumber && fromNumber.startsWith('whatsapp:')`, which is only a
boolean when `fromNumber` is truthy; `cleanNumber` is `none` exactly
when the JS value would be `undefined`. -/
structure ChannelInfo where
  isWhatsApp : JsVal
  cleanNumber : Option String
  channel : String
deriving DecidableEq, Repr

/-- server.js:72-79. -/
def getChannelInfo (fromNumber : Option String) : ChannelInfo :=
  match fromNumber with
  | none => ⟨.undef, none, "sms"⟩
  | some s =>
      if s = "" then ⟨.emptyStr, some "", "sms"⟩
      else if jsStartsWith s "whatsapp:" then
        ⟨.jsBool true, some (jsReplaceFirst s "whatsapp:" ""), "whatsapp"⟩
      else ⟨.jsBool false, some s, "sms"⟩

/-! ## Hazard parser (`parseHazardReport`, server.js:167-197) -/

/-- The ordered hazard keyword table (insertion order of the JS object
literal, which `Object.entries` preserves). -/
def hazardTypesTbl : List (String × List String) :=
  [("flood", ["flood", "flooding", "inundation"]),
   ("tsunami", ["tsunami", "wave surge", "surge"]),
   ("storm", ["storm", "cyclone", "wind"]),
   ("waves", ["wave", "waves", "high waves"])]

/-- The ordered urgency keyword table. -/
def urgencyTbl : List (String × List String) :=
  [("urgent", ["urgent", "immediate", "emergency", "help"]),
   ("medium", ["serious", "dangerous", "high"]),
   ("low", ["normal", "minor", "small"])]

/-- The `for … of Object.entries` loop with `break`: the first table
entry one of whose keywords occurs in `msg` wins; otherwise the
initialisation value `dflt`. -/
def firstKeywordMatch (tbl : List (String × List String)) (dflt : String)
    (msg : String) : String :=
  match tbl with
  | [] => dflt
  | (k, ws) :: rest =>
      if ws.any (fun w => jsIncludes msg w) then k
      else firstKeywordMatch rest dflt msg

/-- Characters that terminate the location capture group `[^,\.\n]+`. -/
def isLocStop (c : Char) : Bool :=
  c == ',' || c == '.' || c == '\n'

/-- Case-insensitive `listStartsWith` (the regex carries the `i` flag). -/
def ciStartsWith (l pat : List Char) : Bool :=
  listStartsWith (l.map Char.toLower) (pat.map Char.toLower)

/-- Attempt the alternation `(?:at|in|near)` at the head of `cs`,
returning the keyword length on success.  The branches are tried in the
regex's order; their first letters are distinct so at most one fits. -/
def locKeywordLen (cs : List Char) : Option Nat :=
  if ciStartsWith cs ('a' :: 't' :: []) then some 2
  else if ciStartsWith cs ('i' :: 'n' :: []) then some 2
  else if ciStartsWith cs ('n' :: 'e' :: 'a' :: 'r' :: []) then some 4
  else none

/-- Backtracking for `\s+([^,\.\n]+)`: the greedy `\s+` first takes `k`
whitespace characters (longest first) and the capture then needs at
least one non-terminator character. -/
def locBacktrack (cs : List Char) : Nat → Option (List Char)
  | 0 => none
  | k + 1 =>
      let cap := (cs.drop (k + 1)).takeWhile (fun c => !isLocStop c)
      if cap.isEmpty then locBacktrack cs k else some cap

/-- Match `\s+([^,\.\n]+)` against `cs` (the text right after the
keyword), returning the captured group. -/
def locAfterKeyword (cs : List Char) : Option (List Char) :=
  locBacktrack cs (cs.takeWhile isJsSpace).length

/-- Leftmost match of `/(?:at|in|near)\s+([^,\.\n]+)/i`: scan positions
left to right; at each position try the keyword and, if the rest of the
pattern fails there, resume the scan one character further. -/
def locScan : List Char → Option (List Char)
  | [] => none
  | c :: rest =>
      match locKeywordLen (c :: rest) with
      | some n =>
          match locAfterKeyword ((c :: rest).drop n) with
          | some cap => some cap
          | none => locScan rest
      | none => locScan rest

/-- Result record of `parseHazardReport`. -/
structure ParsedReport where
  hazardType : String
  urgency : String
  location : String
  originalMessage : Option String
deriving DecidableEq, Repr

/-- server.js:167-197.  The body is case-folded once (`msg`) and the
location regex runs on that *lowercased* text, exactly as in the
source. -/
def parseHazardReport (messageBody : Option String) : ParsedReport :=
  let msg := jsToLower (jsOrEmpty messageBody)
  let hazardType := firstKeywordMatch hazardTypesTbl "other" msg
  let urgency := firstKeywordMatch urgencyTbl "medium" msg
  let location :=
    match locScan msg.data with
    | some cap => jsTrim ⟨cap⟩
    | none => "Unknown location"
  ⟨hazardType, urgency, location, messageBody⟩

/-! ## Geocoder (`geocodeLocation`, server.js:143-164)

The Nominatim round trip is an external collaborator: the embedded
function receives the already-parsed response as `Option (List Coords)`
(`none` = network error or malformed JSON, `some []` = empty result
array).  Coordinates are the provider's payload; `parseFloat` of the
lat/lon strings is subsumed in it (floats are out of scope). -/

/-- A coordinate pair as produced by the geocoding provider. -/
structure Coords where
  lat : Int
  lon : Int
deriving DecidableEq, Repr

/-- The geocoder's process-wide state: the `global._geoCache` memo
(association list, newest entry first) and the shared `lastGeoTs`
rate-limit clock. -/
structure GeoState where
  cache : List (String × Coords)
  lastGeoTs : Nat
deriving DecidableEq, Repr

/-- `global._geoCache[place]` — first matching key wins. -/
def lookupCache : List (String × Coords) → String → Option Coords
  | [], _ => none
  | (k, v) :: rest, p => if k = p then some v else lookupCache rest p

/-- Result of one `geocodeLocation` call: the returned value, whether
the external lookup was dispatched at all, and the state afterwards. -/
structure GeoResult where
  value : Option Coords
  dispatched : Bool
  state : GeoState
deriving DecidableEq, Repr

/-- server.js:143-164.  The sentinel/empty guard and the cache hit both
return before the rate-limit wait; on a miss `lastGeoTs` is set to the
dispatch time and only a non-empty result array is cached.  (The actual
`setTimeout` wait is real time and not modelled.) -/
def geocodeLocation (place : String) (resp : Option (List Coords))
    (now : Nat) (st : GeoState) : GeoResult :=
  if place = "" ∨ place = "Unknown location" then ⟨none, false, st⟩
  else
    match lookupCache st.cache place with
    | some c => ⟨some c, false, st⟩
    | none =>
        match resp with
        | some (e :: _) => ⟨some e, true, ⟨(place, e) :: st.cache, now⟩⟩
        | some [] => ⟨none, true, ⟨st.cache, now⟩⟩
        | none => ⟨none, true, ⟨st.cache, now⟩⟩

/-- One geocoder invocation as seen from the outside: the phrase, the
provider's answer for it, and the wall-clock instant. -/
structure GeoCall where
  place : String
  resp : Option (List Coords)
  now : Nat
deriving DecidableEq, Repr

/-- Run a sequence of geocoder calls, threading the shared state. -/
def applyGeoCalls (calls : List GeoCall) (st : GeoState) : GeoState :=
  calls.foldl (fun s c => (geocodeLocation c.place c.resp c.now s).state) st

/-! ## Report store (`saveReport`, server.js:199-206) -/

/-- Media attachment record returned by `downloadMedia`. -/
structure MediaInfo where
  filename : String
  filepath : String
  size : Nat
  contentType : Option String
  url : String
deriving DecidableEq, Repr

/-- The central Report entity (server.js:295-306 plus the fields
assigned by `saveReport`). -/
structure Report where
  id : String
  createdAt : String
  phoneNumber : Option String
  message : String
  hazardType : String
  location : String
  coordinates : Option Coords
  urgency : String
  messageSid : Option String
  source : String
  status : String
  hasMedia : JsVal
  media : Option MediaInfo
deriving DecidableEq, Repr

/-- `String(now).slice(-9)`: the last nine characters of the decimal
representation (the whole string when shorter). -/
def sliceLastNine (s : String) : String :=
  ⟨s.data.drop (s.data.length - 9)⟩

/-- server.js:200: `'REP' + String(Date.now()).slice(-9)`. -/
def mkReportId (now : Nat) : String :=
  "REP" ++ sliceLastNine (Nat.repr now)

/-- server.js:199-206: assign id and creation time, `unshift`, truncate
to 1000, persist (persistence is the identity on the in-memory list in
this model), return the stored report. -/
def saveReport (draft : Report) (now : Nat) (nowIso : String)
    (reports : List Report) : Report × List Report :=
  let report := { draft with id := mkReportId now, createdAt := nowIso }
  let rs := report :: reports
  (report, if rs.length > 1000 then rs.take 1000 else rs)

/-- `GET /api/reports` (server.js:347) returns the collection as
stored, most recent first. -/
def listReports (reports : List Report) : List Report :=
  reports

/-! ## Webhook authenticator and handler (server.js:241-344) -/

/-- server.js:241-272.  With no auth token configured the check is
bypassed; otherwise the verdict is `twilio.validateRequest`, an
external collaborator, passed in as `sigValid`. -/
def validateTwilioRequest (authTokenSet sigValid : Bool) : Bool :=
  if !authTokenSet then true else sigValid

/-- The form-encoded webhook payload fields the handler destructures. -/
structure TwilioPayload where
  From : Option String
  Body : Option String
  MessageSid : Option String
  NumMedia : Option String
  MediaUrl0 : Option String
  MediaContentType0 : Option String
deriving DecidableEq, Repr

/-- `hasMedia: NumMedia && parseInt(NumMedia) > 0` — the stored JS
value: `undefined` when the field is absent, `''` when empty, and a
boolean only otherwise. -/
def numMediaFlag (nm : Option String) : JsVal :=
  match nm with
  | none => .undef
  | some s =>
      if s = "" then .emptyStr
      else .jsBool (match parseIntJS s with
                    | some k => decide (0 < k)
                    | none => false)

/-- Replace the first report whose id matches (the
`findIndex`/assignment pair of server.js:318-321). -/
def replaceById : List Report → String → Report → List Report
  | [], _, _ => []
  | r :: rs, i, r' => if r.id = i then r' :: rs else r :: replaceById rs i r'

/-- Everything the webhook handler produces besides state: the HTTP
status and body, the report created by `saveReport` (if any), the
`new-report` socket events emitted, and whether an outbound
confirmation send was attempted. -/
structure HandlerResult where
  status : Nat
  body : String
  created : Option Report
  events : List Report
  confirmAttempted : Bool
deriving DecidableEq, Repr

/-- The process state the handler touches. -/
structure ServerState where
  reports : List Report
  geo : GeoState
deriving DecidableEq, Repr

/-- The success branch of the handler (everything after the signature
gate, server.js:283-338). -/
def handleAuthenticated (p : TwilioPayload) (geoResp : Option (List Coords))
    (mediaDl : Option MediaInfo) (now : Nat) (nowIso : String)
    (st : ServerState) : HandlerResult × ServerState :=
  let channelInfo := getChannelInfo p.From
  let parsed := parseHazardReport (some (jsOrEmpty p.Body))
  let geoRes := geocodeLocation parsed.location geoResp now st.geo
  let reportData : Report :=
    { id := "", createdAt := "",
      phoneNumber := p.From,
      message := jsOrDefault p.Body "[Media message]",
      hazardType := parsed.hazardType,
      location := parsed.location,
      coordinates := geoRes.value,
      urgency := parsed.urgency,
      messageSid := p.MessageSid,
      source := channelInfo.channel,
      status := "pending",
      hasMedia := numMediaFlag p.NumMedia,
      media := none }
  let saved := saveReport reportData now nowIso st.reports
  let withMedia : Report × List Report :=
    if (numMediaFlag p.NumMedia).truthy && jsTruthyOpt p.MediaUrl0 then
      match mediaDl with
      | some info =>
          let r' := { saved.1 with media := some info }
          (r', replaceById saved.2 saved.1.id r')
      | none => saved
    else saved
  ({ status := 200, body := "<Response></Response>",
     created := some saved.1,
     events := [withMedia.1],
     confirmAttempted := true },
   { reports := withMedia.2, geo := geoRes.state })

/-- server.js:275-344: the `POST /api/twilio/incoming-sms` handler.  On
a failed signature check it answers 403 and does nothing else; the
state is returned unchanged. -/
def handleIncomingSms (authTokenSet sigValid : Bool) (p : TwilioPayload)
    (geoResp : Option (List Coords)) (mediaDl : Option MediaInfo)
    (now : Nat) (nowIso : String) (st : ServerState) :
    HandlerResult × ServerState :=
  if validateTwilioRequest authTokenSet sigValid then
    handleAuthenticated p geoResp mediaDl now nowIso st
  else
    ({ status := 403, body := "Forbidden - invalid Twilio signature",
       created := none, events := [], confirmAttempted := false }, st)

/-! ## Helper lemmas -/

/-- A `saveReport` always prepends the freshly stamped report and keeps
at most the first 999 previous entries. -/
theorem saveReport_snd_eq (d : Report) (now : Nat) (nowIso : String)
    (rs : List Report) :
    (saveReport d now nowIso rs).2 = (saveReport d now nowIso rs).1 :: rs.take 999 := by
  unfold saveReport
  dsimp only
  split
  · exact List.take_succ_cons ..
  · next h =>
      have hlen : rs.length ≤ 999 := by
        simp only [List.length_cons, gt_iff_lt, not_lt] at h
        omega
      rw [List.take_of_length_le hlen]

/-- The stored collection never exceeds 1000 entries after a create. -/
theorem saveReport_len_le (d : Report) (now : Nat) (nowIso : String)
    (rs : List Report) : ((saveReport d now nowIso rs).2).length ≤ 1000 := by
  rw [saveReport_snd_eq]
  simp only [List.length_cons, List.length_take]
  omega

/-- Folding any sequence of creates keeps the bound. -/
theorem storeFold_len_le (ops : List (Report × Nat × String)) :
    ∀ rs : List Report, rs.length ≤ 1000 →
      ((ops.foldl (fun acc o => (saveReport o.1 o.2.1 o.2.2 acc).2) rs)).length ≤ 1000 := by
  induction ops with
  | nil => intro rs h; simpa using h
  | cons o t ih =>
      intro rs _
      rw [List.foldl_cons]
      exact ih _ (saveReport_len_le o.1 o.2.1 o.2.2 rs)

/-- Removing the first occurrence of a pattern that the string starts
with just drops the pattern. -/
theorem replaceFirstList_of_startsWith (l pat : List Char)
    (h : listStartsWith l pat = true) :
    replaceFirstList l pat [] = l.drop pat.length := by
  cases l with
  | nil =>
      cases pat with
      | nil => rfl
      | cons b bs => simp [listStartsWith] at h
  | cons c cs =>
      unfold replaceFirstList
      rw [if_pos h]
      simp

/-- A geocoder call never removes or changes an existing cache entry. -/
theorem geocode_step_preserves_cache (q : String) (c : Coords) (a : GeoCall)
    (st : GeoState) (h : lookupCache st.cache q = some c) :
    lookupCache ((geocodeLocation a.place a.resp a.now st).state).cache q = some c := by
  unfold geocodeLocation
  split
  · exact h
  · cases hl : lookupCache st.cache a.place with
    | some d => simp only [hl]; exact h
    | none =>
        cases hr : a.resp with
        | none => simp only [hl, hr]; exact h
        | some l =>
            cases l with
            | nil => simp only [hl, hr]; exact h
            | cons e r =>
                simp only [hl, hr]
                have hne : a.place ≠ q := by
                  intro hqe
                  rw [hqe, h] at hl
                  cases hl
                simpa [lookupCache, hne] using h

/-! ## Claim theorems -/

/-- C1: when the auth token is configured and the inbound request's
signature fails validation, the webhook handler answers HTTP 403 with
the literal rejection body and performs no further action: no report is
created, no `new-report` event is emitted, no confirmation send is
attempted, and the whole server state (report store and geocoder state)
is returned unchanged. -/
theorem webhook_invalid_signature_rejected (p : TwilioPayload)
    (geoResp : Option (List Coords)) (mediaDl : Option MediaInfo)
    (now : Nat) (nowIso : String) (st : ServerState) :
    handleIncomingSms true false p geoResp mediaDl now nowIso st =
      ({ status := 403, body := "Forbidden - invalid Twilio signature",
         created := none, events := [], confirmAttempted := false }, st) := rfl

/-- C2 counterexample: for the text "Flooding near Marina Beach, urgent
help needed" the parser does *not* return the location capitalised as
in the input — the regex runs on the lowercased body
(server.js:180,193), so the claimed "Marina Beach" is wrong. -/
theorem parse_marina_beach_capitalization_counterexample :
    (parseHazardReport
        (some "Flooding near Marina Beach, urgent help needed")).location ≠
      "Marina Beach" := by decide

/-- C2 amended: for the text "Flooding near Marina Beach, urgent help
needed" the parser returns hazardType "flood", urgency "urgent", and
location "marina beach" — the phrase after "near", terminated at the
comma, trimmed, but case-folded to lower case because the location
regex is matched against the lowercased message body. -/
theorem parse_marina_beach_amended :
    parseHazardReport (some "Flooding near Marina Beach, urgent help needed") =
      ⟨"flood", "urgent", "marina beach",
        some "Flooding near Marina Beach, urgent help needed"⟩ := by decide

/-- C4: the report store is bounded by 1000 and most-recent-first:
every create yields exactly the new stamped report consed onto the
first 999 previous entries (so the oldest, tail entries are the ones
evicted on overflow), and any sequence of creates starting from the
empty store keeps the length at most 1000. -/
theorem report_store_bounded_mrf :
    (∀ (d : Report) (now : Nat) (nowIso : String) (rs : List Report),
        (saveReport d now nowIso rs).2 =
          (saveReport d now nowIso rs).1 :: rs.take 999) ∧
    (∀ ops : List (Report × Nat × String),
        ((ops.foldl (fun acc o => (saveReport o.1 o.2.1 o.2.2 acc).2)
            ([] : List Report))).length ≤ 1000) ∧
    (∀ rs : List Report, listReports rs = rs) :=
  ⟨saveReport_snd_eq,
   fun ops => storeFold_len_le ops [] (by simp),
   fun _ => rfl⟩

/-- C5: the hazard classifier is first-match over the fixed category
order flood, tsunami, storm, waves (case-folded substring matching),
defaulting to "other"; urgency is first-match over urgent, medium, low,
defaulting to "medium".  The first two conjuncts characterise the loop
for every body; the remaining closed conjuncts exhibit the priority
order (an earlier category beats a later one appearing in the same
text) and the defaults on keyword-free text. -/
theorem parse_first_match_characterization (b : Option String) :
    ((parseHazardReport b).hazardType =
      (if ["flood", "flooding", "inundation"].any
            (fun w => jsIncludes (jsToLower (jsOrEmpty b)) w) then "flood"
       else if ["tsunami", "wave surge", "surge"].any
            (fun w => jsIncludes (jsToLower (jsOrEmpty b)) w) then "tsunami"
       else if ["storm", "cyclone", "wind"].any
            (fun w => jsIncludes (jsToLower (jsOrEmpty b)) w) then "storm"
       else if ["wave", "waves", "high waves"].any
            (fun w => jsIncludes (jsToLower (jsOrEmpty b)) w) then "waves"
       else "other")) ∧
    ((parseHazardReport b).urgency =
      (if ["urgent", "immediate", "emergency", "help"].any
            (fun w => jsIncludes (jsToLower (jsOrEmpty b)) w) then "urgent"
       else if ["serious", "dangerous", "high"].any
            (fun w => jsIncludes (jsToLower (jsOrEmpty b)) w) then "medium"
       else if ["normal", "minor", "small"].any
            (fun w => jsIncludes (jsToLower (jsOrEmpty b)) w) then "low"
       else "medium")) ∧
    (parseHazardReport (some "cyclone with flooding")).hazardType = "flood" ∧
    (parseHazardReport (some "high tide urgent")).urgency = "urgent" ∧
    (parseHazardReport (some "xyz qrs")).hazardType = "other" ∧
    (parseHazardReport (some "xyz qrs")).urgency = "medium" :=
  ⟨rfl, rfl, by decide, by decide, by decide, by decide⟩

/-- C3 counterexample: id uniqueness fails even for strictly increasing
creation timestamps.  `mkReportId` keeps only the last nine decimal
digits of the millisecond clock, so the strictly increasing sequence
that runs 10^12, 10^12+1, …, 10^12+998 and then jumps to 10^12+10^9
assigns the same id "REP000000000" to its first and last create. -/
theorem report_ids_collide_counterexample :
    ¬ (∀ ts : Fin 1000 → Nat, StrictMono ts →
        (∀ i, mkReportId (ts i) ≠ "") ∧
        Function.Injective (fun i => mkReportId (ts i))) := by
  intro h
  have hmono : StrictMono (fun i : Fin 1000 =>
      1000000000000 + (if i.val = 999 then 1000000000 else i.val)) := by
    intro i j hij
    have hij' : i.val < j.val := hij
    have hj : j.val < 1000 := j.isLt
    dsimp only
    split <;> split <;> omega
  obtain ⟨-, hinj⟩ := h _ hmono
  have heq : (fun i : Fin 1000 =>
        mkReportId (1000000000000 + (if i.val = 999 then 1000000000 else i.val)))
          ⟨0, by decide⟩ =
      (fun i : Fin 1000 =>
        mkReportId (1000000000000 + (if i.val = 999 then 1000000000 else i.val)))
          ⟨999, by decide⟩ := by decide
  have hcontra := hinj heq
  exact absurd hcontra (by decide)

/-- C3 amended: across any sequence of creates, every assigned id is a
non-empty string, and the ids are pairwise distinct *provided* the
creation timestamps are pairwise distinct in their last nine decimal
digits (the part `String(Date.now()).slice(-9)` keeps).  Monotonicity
of the clock alone is not enough: two creates in the same millisecond,
or 10^9 ms apart, collide. -/
theorem report_ids_distinct_of_digit_strings_distinct (n : Nat)
    (ts : Fin n → Nat)
    (h : Function.Injective (fun i => sliceLastNine (Nat.repr (ts i)))) :
    (∀ i, mkReportId (ts i) ≠ "") ∧
    Function.Injective (fun i => mkReportId (ts i)) := by
  constructor
  · intro i hemp
    have hlen := congrArg String.length hemp
    rw [mkReportId, String.length_append] at hlen
    simp at hlen
    exact absurd hlen.1 (by decide)
  · intro i j hij
    apply h
    have hdata := congrArg String.data hij
    unfold mkReportId at hdata
    rw [String.data_append, String.data_append] at hdata
    simp only [List.cons_append, List.nil_append, List.cons.injEq, true_and] at hdata
    exact String.ext hdata

/-- C3 witness: the amended theorem applied to the two-element
timestamp family 3, 7 (distinct last-nine-digit strings), yielding a
non-empty id and two distinct ids. -/
theorem report_ids_distinct_witness :
    mkReportId 3 ≠ "" ∧ mkReportId 3 ≠ mkReportId 7 := by
  have h := report_ids_distinct_of_digit_strings_distinct 2
    (fun i => if i.val = 0 then 3 else 7) (by decide)
  constructor
  · simpa using h.1 ⟨0, by decide⟩
  · intro heq
    have h2 := h.2 (show (fun i : Fin 2 =>
        mkReportId (if i.val = 0 then 3 else 7)) ⟨0, by decide⟩ =
      (fun i : Fin 2 => mkReportId (if i.val = 0 then 3 else 7)) ⟨1, by decide⟩ by
        simpa using heq)
    exact absurd h2 (by decide)

/-- C6: when a geocoder call reaches the external lookup (non-sentinel
phrase, cache miss), a non-empty result returns the first match's
coordinates and caches them under the phrase, while an empty result or
a failed/malformed response returns absent and leaves the cache exactly
as it was (only the rate-limit clock advances), so a later call with
the same phrase may retry the lookup. -/
theorem geocode_external_lookup_behavior (place : String) (st : GeoState)
    (now : Nat) (e : Coords) (rest : List Coords)
    (h1 : ¬(place = "" ∨ place = "Unknown location"))
    (h2 : lookupCache st.cache place = none) :
    geocodeLocation place (some (e :: rest)) now st =
      ⟨some e, true, ⟨(place, e) :: st.cache, now⟩⟩ ∧
    geocodeLocation place (some []) now st = ⟨none, true, ⟨st.cache, now⟩⟩ ∧
    geocodeLocation place none now st = ⟨none, true, ⟨st.cache, now⟩⟩ := by
  refine ⟨?_, ?_, ?_⟩ <;> simp [geocodeLocation, h1, h2]

/-- C6 witness: the three external-lookup cases evaluated on a concrete
fresh phrase against the empty cache. -/
theorem geocode_external_lookup_witness :
    geocodeLocation "Chennai" (some [⟨13, 80⟩]) 1700 ⟨[], 0⟩ =
      ⟨some ⟨13, 80⟩, true, ⟨[("Chennai", ⟨13, 80⟩)], 1700⟩⟩ ∧
    geocodeLocation "Chennai" (some []) 1700 ⟨[], 0⟩ =
      ⟨none, true, ⟨[], 1700⟩⟩ ∧
    geocodeLocation "Chennai" none 1700 ⟨[], 0⟩ =
      ⟨none, true, ⟨[], 1700⟩⟩ :=
  geocode_external_lookup_behavior "Chennai" ⟨[], 0⟩ 1700 ⟨13, 80⟩ []
    (by decide) rfl

/-- C7 counterexample: for an absent sender address the channel
detector does *not* produce an empty-string clean number (the JS value
is `undefined`, i.e. absent), and its `isWhatsApp` field is not the
boolean `false` (it is the raw falsy `undefined`). -/
theorem getChannelInfo_absent_counterexample :
    (getChannelInfo none).cleanNumber ≠ some "" ∧
    (getChannelInfo none).isWhatsApp ≠ JsVal.jsBool false := by decide

/-- C7 amended: the channel detector is total (the Lean function is
total, modelling that the JS code cannot throw thanks to the
short-circuiting `&&`): an absent address yields channel "sms" with an
*absent* clean number and `undefined` in the `isWhatsApp` field; an
empty address yields channel "sms" with the empty-string clean number
and the falsy empty string (not a boolean) in `isWhatsApp`; an address
with the "whatsapp:" prefix yields `isWhatsApp = true`, channel
"whatsapp", and the clean number with the 9-character prefix
stripped. -/
theorem getChannelInfo_total_behavior (s : String)
    (h : jsStartsWith s "whatsapp:" = true) :
    getChannelInfo none = ⟨.undef, none, "sms"⟩ ∧
    getChannelInfo (some "") = ⟨.emptyStr, some "", "sms"⟩ ∧
    getChannelInfo (some s) =
      ⟨.jsBool true, some ⟨s.data.drop 9⟩, "whatsapp"⟩ := by
  refine ⟨rfl, rfl, ?_⟩
  have hne : ¬ s = "" := by
    intro hs
    rw [hs] at h
    exact absurd h (by decide)
  have hdrop : jsReplaceFirst s "whatsapp:" "" = ⟨s.data.drop 9⟩ := by
    unfold jsReplaceFirst
    rw [replaceFirstList_of_startsWith s.data _ h]
    rfl
  simp [getChannelInfo, hne, h, hdrop]

/-- C7 witness: the amended theorem applied to a concrete WhatsApp
address and to the absent address. -/
theorem getChannelInfo_total_behavior_witness :
    getChannelInfo (some "whatsapp:+15551234567") =
      ⟨.jsBool true, some ⟨"whatsapp:+15551234567".data.drop 9⟩, "whatsapp"⟩ ∧
    getChannelInfo none = ⟨.undef, none, "sms"⟩ :=
  ⟨(getChannelInfo_total_behavior "whatsapp:+15551234567" (by decide)).2.2,
   (getChannelInfo_total_behavior "whatsapp:+15551234567" (by decide)).1⟩

/-- C10: the geocode cache is write-once per key.  Once an entry for a
phrase is present (only non-empty, non-sentinel phrases are ever
stored), a call with the exact same phrase returns exactly the stored
coordinates, does not dispatch an external lookup, and leaves the
state untouched; and no sequence of further calls (any phrases, any
responses) ever changes or removes the entry. -/
theorem geocode_cache_write_once (q : String) (c : Coords) (st : GeoState)
    (calls : List GeoCall) (resp : Option (List Coords)) (now : Nat)
    (h1 : ¬(q = "" ∨ q = "Unknown location"))
    (h : lookupCache st.cache q = some c) :
    geocodeLocation q resp now st = ⟨some c, false, st⟩ ∧
    lookupCache (applyGeoCalls calls st).cache q = some c := by
  refine ⟨by simp [geocodeLocation, h1, h], ?_⟩
  induction calls generalizing st with
  | nil => exact h
  | cons a t ih =>
      exact ih _ (geocode_step_preserves_cache q c a st h)

/-- C10 witness: a cached phrase is returned from the cache with no
dispatch, and survives an unrelated later call. -/
theorem geocode_cache_write_once_witness :
    geocodeLocation "Chennai" (some []) 7 ⟨[("Chennai", ⟨13, 80⟩)], 5⟩ =
      ⟨some ⟨13, 80⟩, false, ⟨[("Chennai", ⟨13, 80⟩)], 5⟩⟩ ∧
    lookupCache
      (applyGeoCalls [⟨"Mumbai", some [⟨19, 72⟩], 9⟩]
        ⟨[("Chennai", ⟨13, 80⟩)], 5⟩).cache "Chennai" = some ⟨13, 80⟩ :=
  geocode_cache_write_once "Chennai" ⟨13, 80⟩ ⟨[("Chennai", ⟨13, 80⟩)], 5⟩
    [⟨"Mumbai", some [⟨19, 72⟩], 9⟩] (some []) 7 (by decide) rfl

/-- On the success path the created report's `message` is exactly
`Body || '[Media message]'`. -/
theorem handle_created_message (p : TwilioPayload)
    (geoResp : Option (List Coords)) (mediaDl : Option MediaInfo)
    (now : Nat) (nowIso : String) (st : ServerState) :
    (handleIncomingSms true true p geoResp mediaDl now nowIso st).1.created.map
      Report.message = some (jsOrDefault p.Body "[Media message]") := rfl

/-- On the success path the created report's `hasMedia` is exactly the
JS value of `NumMedia && parseInt(NumMedia) > 0`. -/
theorem handle_created_hasMedia (p : TwilioPayload)
    (geoResp : Option (List Coords)) (mediaDl : Option MediaInfo)
    (now : Nat) (nowIso : String) (st : ServerState) :
    (handleIncomingSms true true p geoResp mediaDl now nowIso st).1.created.map
      Report.hasMedia = some (numMediaFlag p.NumMedia) := rfl

/-- The report emitted as `new-report` carries the same `message` as
the created report (the media update only adds the `media` field). -/
theorem handle_events_message (p : TwilioPayload)
    (geoResp : Option (List Coords)) (mediaDl : Option MediaInfo)
    (now : Nat) (nowIso : String) (st : ServerState) :
    (handleIncomingSms true true p geoResp mediaDl now nowIso st).1.events.map
        Report.message =
      ((handleIncomingSms true true p geoResp mediaDl now nowIso st).1.created.map
        Report.message).toList := by
  show (handleAuthenticated p geoResp mediaDl now nowIso st).1.events.map
        Report.message =
      ((handleAuthenticated p geoResp mediaDl now nowIso st).1.created.map
        Report.message).toList
  unfold handleAuthenticated
  cases hc : (numMediaFlag p.NumMedia).truthy && jsTruthyOpt p.MediaUrl0 with
  | true =>
      cases mediaDl with
      | some info => simp [hc]
      | none => simp [hc]
  | false => simp [hc]

/-- C8 counterexample: a webhook request whose `Body` is the empty
string (a media-only submission) is *not* stored with an empty
`message`: the handler substitutes the placeholder "[Media message]"
(server.js:297), so the claimed raw-body/empty-string storage is
wrong. -/
theorem webhook_empty_body_counterexample :
    ((handleIncomingSms true true
          ⟨some "+15550001111", some "", none, none, none, none⟩
          none none 1 "2024-01-01T00:00:00.000Z"
          ⟨[], ⟨[], 0⟩⟩).1.created.map Report.message) =
        some "[Media message]" ∧
      "[Media message]" ≠ "" := by decide

/-- C8 amended: the created report's `message` equals the raw inbound
body whenever that body is present and non-empty; an absent *or empty*
body is stored as the literal placeholder "[Media message]"; and the
message is not modified afterwards — the report the handler goes on to
publish carries the identical `message`. -/
theorem webhook_message_field (p : TwilioPayload)
    (geoResp : Option (List Coords)) (mediaDl : Option MediaInfo)
    (now : Nat) (nowIso : String) (st : ServerState) :
    (∀ b : String, p.Body = some b → b ≠ "" →
      (handleIncomingSms true true p geoResp mediaDl now nowIso st).1.created.map
        Report.message = some b) ∧
    ((p.Body = none ∨ p.Body = some "") →
      (handleIncomingSms true true p geoResp mediaDl now nowIso st).1.created.map
        Report.message = some "[Media message]") ∧
    ((handleIncomingSms true true p geoResp mediaDl now nowIso st).1.events.map
        Report.message =
      ((handleIncomingSms true true p geoResp mediaDl now nowIso st).1.created.map
        Report.message).toList) := by
  refine ⟨?_, ?_, handle_events_message p geoResp mediaDl now nowIso st⟩
  · intro b hb hbne
    rw [handle_created_message, hb]
    simp [jsOrDefault, hbne]
  · intro hcase
    rw [handle_created_message]
    rcases hcase with hnone | hempty
    · rw [hnone]
      rfl
    · rw [hempty]
      rfl

/-- C8 witness: the amended theorem applied to a concrete non-empty
body, which is stored verbatim. -/
theorem webhook_message_field_witness :
    ((handleIncomingSms true true
        ⟨some "+15550001111", some "storm warning at port x", none, none,
          none, none⟩
        none none 5 "2024-01-01T00:00:00.000Z"
        ⟨[], ⟨[], 0⟩⟩).1.created.map Report.message) =
      some "storm warning at port x" :=
  (webhook_message_field
      ⟨some "+15550001111", some "storm warning at port x", none, none,
        none, none⟩
      none none 5 "2024-01-01T00:00:00.000Z" ⟨[], ⟨[], 0⟩⟩).1
    "storm warning at port x" rfl (by decide)

/-- C9 counterexample: when `NumMedia` is absent the created report's
`hasMedia` field is the JS value `undefined` — not a boolean at all
(`NumMedia && parseInt(NumMedia) > 0` short-circuits to the falsy
left operand, server.js:305) — refuting the claim that the field is
always `true` or `false`. -/
theorem webhook_hasMedia_counterexample :
    ((handleIncomingSms true true
          ⟨some "+15550001111", some "flood water", none, none, none, none⟩
          none none 2 "2024-01-01T00:00:00.000Z"
          ⟨[], ⟨[], 0⟩⟩).1.created.map Report.hasMedia) = some JsVal.undef ∧
      JsVal.undef ≠ JsVal.jsBool true ∧ JsVal.undef ≠ JsVal.jsBool false := by
  decide

/-- C9 amended: the created report's `hasMedia` holds the raw JS value
of `NumMedia && parseInt(NumMedia) > 0`: for a present, non-empty
`NumMedia` it is the boolean "parses to a number greater than zero"
(`false` also when parsing yields NaN); for an absent `NumMedia` it is
`undefined` and for an empty one the empty string — falsy but not
booleans. -/
theorem webhook_hasMedia_field (p : TwilioPayload)
    (geoResp : Option (List Coords)) (mediaDl : Option MediaInfo)
    (now : Nat) (nowIso : String) (st : ServerState) :
    ((handleIncomingSms true true p geoResp mediaDl now nowIso st).1.created.map
        Report.hasMedia = some (numMediaFlag p.NumMedia)) ∧
    (p.NumMedia = none →
      (handleIncomingSms true true p geoResp mediaDl now nowIso st).1.created.map
        Report.hasMedia = some JsVal.undef) ∧
    (p.NumMedia = some "" →
      (handleIncomingSms true true p geoResp mediaDl now nowIso st).1.created.map
        Report.hasMedia = some JsVal.emptyStr) ∧
    (∀ (s : String) (k : Int), p.NumMedia = some s → s ≠ "" →
      parseIntJS s = some k →
      (handleIncomingSms true true p geoResp mediaDl now nowIso st).1.created.map
        Report.hasMedia = some (JsVal.jsBool (decide (0 < k)))) ∧
    (∀ s : String, p.NumMedia = some s → s ≠ "" → parseIntJS s = none →
      (handleIncomingSms true true p geoResp mediaDl now nowIso st).1.created.map
        Report.hasMedia = some (JsVal.jsBool false)) := by
  refine ⟨handle_created_hasMedia p geoResp mediaDl now nowIso st, ?_, ?_, ?_, ?_⟩
  · intro hnone
    rw [handle_created_hasMedia, hnone]
    rfl
  · intro hempty
    rw [handle_created_hasMedia, hempty]
    rfl
  · intro s k hs hsne hk
    rw [handle_created_hasMedia, hs]
    simp [numMediaFlag, hsne, hk]
  · intro s hs hsne hk
    rw [handle_created_hasMedia, hs]
    simp [numMediaFlag, hsne, hk]

/-- C9 witness: the amended theorem applied to a payload declaring two
media items — `hasMedia` comes out as the boolean `true`. -/
theorem webhook_hasMedia_field_witness :
    ((handleIncomingSms true true
        ⟨some "+15550001111", some "flood water", none, some "2", none, none⟩
        none none 3 "2024-01-01T00:00:00.000Z"
        ⟨[], ⟨[], 0⟩⟩).1.created.map Report.hasMedia) =
      some (JsVal.jsBool true) := by
  have h := (webhook_hasMedia_field
      ⟨some "+15550001111", some "flood water", none, some "2", none, none⟩
      none none 3 "2024-01-01T00:00:00.000Z" ⟨[], ⟨[], 0⟩⟩).2.2.2.1
    "2" 2 rfl (by decide) (by decide)
  simpa using h
